import Mathlib

/-!
Shallow embedding of the two programs of this repository:

* `qwen3_embedding_server.py` — a FastAPI service whose `/embed` endpoint
  validates a request, runs an external pretrained model, mean-pools,
  L2-normalizes, optionally truncates the vector (MRL), and shapes the
  response; `/embed/batch` maps the same logic over a list of texts.
* `test_ollama_embedding.py` — a smoke-test script with a wake/poll
  readiness loop and a cosine-similarity utility.

The external model/tokenizer pipeline is a collaborator, not repository
logic: the handler embedding is parameterized by an oracle
`modelF : String → Except String (List ℚ)` giving, for the prepared input
text, either the normalized embedding list produced by the pipeline
(`embeddings[0].cpu().numpy().tolist()` in the source) or the message of a
raised exception.  Vector components are carried as `ℚ`: the handler only
moves them around, never computes with them.  The numeric normalization
step itself is modelled separately over `ℝ` (`torch_normalize`).
-/

deriving instance DecidableEq for Except

namespace Qwen3Server

/-- Embedding of the Pydantic `EmbedRequest` model: `text`, optional
`prefix` (default `""`; `None` and `""` behave identically under Python
truthiness so the default string suffices), optional `dimensions`,
optional `instruction`.  `prefix` is a Lean keyword, hence `prefix_`. -/
structure EmbedRequest where
  text : String
  prefix_ : String := ""
  dimensions : Option Int := none
  instruction : Option String := none
deriving Repr, DecidableEq

/-- An HTTP error response, as produced by `raise HTTPException(...)`. -/
structure HTTPExc where
  status : Int
  detail : String
deriving Repr, DecidableEq

/-- A Python exception arising inside the `try` block of the handler:
either an `HTTPException` (which `str()`s to `"{status}: {detail}"`) or
any other exception with its message. -/
inductive PyExn where
  | http (status : Int) (detail : String)
  | other (msg : String)
deriving Repr, DecidableEq

/-- `str(e)` for the exceptions of `PyExn`: Starlette's `HTTPException`
prints as `"{status_code}: {detail}"`. -/
def PyExn.str : PyExn → String
  | .http s d => s!"{s}: {d}"
  | .other m => m

/-- The JSON body returned by a successful `/embed` call. -/
structure EmbedResponse where
  embedding : List ℚ
  dimensions : Nat
  model : String
  text_length : Nat
  mrl_applied : Bool
deriving Repr, DecidableEq

/-- Model of Python `str.strip()`: drop whitespace characters from both
ends of the string (whitespace per `Char.isWhitespace`; the exotic extra
Unicode whitespace of Python is immaterial to the claims).  Defined by
structural recursion over the character list so that concrete instances
evaluate. -/
def pyStrip (s : String) : String :=
  ⟨((s.data.dropWhile Char.isWhitespace).reverse.dropWhile Char.isWhitespace).reverse⟩

/-- Python truthiness of an `Optional[int]`: `None` and `0` are falsy. -/
def intTruthy : Option Int → Bool
  | none => false
  | some n => n != 0

/-- Lines 168–175 of the server: build `full_text` from the optional
prefix (under Python string truthiness) and the optional instruction
template. -/
def full_text (req : EmbedRequest) : String :=
  let base := if req.prefix_ ≠ "" then pyStrip (req.prefix_ ++ " " ++ req.text) else req.text
  if req.instruction = some "query" then
    "Instruct: Given a query, retrieve relevant passages that answer the query\nQuery: " ++ base
  else if req.instruction = some "document" then
    "Instruct: Embed this document for retrieval\nDocument: " ++ base
  else base

/-- Lines 204–213 of the server: the MRL dimension-reduction step, run
inside the `try` block.  `if target_dim and target_dim != 1024:` skips the
whole block when `dimensions` is `None` **or `0`** (both falsy); otherwise
an in-range value truncates and an out-of-range value raises an
`HTTPException(400, ...)` — which, being raised inside the `try`, is a
`PyExn` for the enclosing handler. -/
def applyMRL (embedding : List ℚ) (target_dim : Option Int) : Except PyExn (List ℚ) :=
  if intTruthy target_dim ∧ target_dim ≠ some 1024 then
    match target_dim with
    | some d =>
        if 32 ≤ d ∧ d ≤ 1024 then
          .ok (embedding.take d.toNat)
        else
          .error (.http 400 s!"Dimensions must be between 32 and 1024, got {d}")
    | none => .ok embedding
  else
    .ok embedding

/-- The body of the `try` block of `generate_embedding` (lines 177–221):
run the external pipeline (tokenize / forward / mean-pool / normalize /
`.tolist()`, summarized by the oracle `modelF` on the prepared text; a
raised library exception is its `.error`), apply MRL reduction, and shape
the response dict. -/
def tryBody (modelF : String → Except String (List ℚ)) (req : EmbedRequest) :
    Except PyExn EmbedResponse :=
  match modelF (full_text req) with
  | .error msg => .error (.other msg)
  | .ok embedding0 =>
    match applyMRL embedding0 req.dimensions with
    | .error e => .error e
    | .ok embedding =>
      .ok { embedding := embedding
            dimensions := embedding.length
            model := "Qwen3-Embedding-0.6B"
            text_length := (full_text req).length
            mrl_applied := req.dimensions.isSome && req.dimensions != some 1024 }

/-- Embedding of the `/embed` handler `generate_embedding`
(lines 157–227): 503 when the global model is not loaded; 400 when the
text is empty or whitespace-only (`not request.text or
request.text.strip() == ""`); otherwise the `try` body, whose every
exception — including the 400 `HTTPException` raised by the dimension
check — is caught by `except Exception` and re-raised as
`HTTPException(500, "Error generating embedding: " + str(e))`. -/
def generate_embedding (modelLoaded : Bool)
    (modelF : String → Except String (List ℚ)) (req : EmbedRequest) :
    Except HTTPExc EmbedResponse :=
  if modelLoaded = false then
    .error ⟨503, "Model is still loading. Please wait..."⟩
  else if req.text = "" ∨ pyStrip req.text = "" then
    .error ⟨400, "Text cannot be empty"⟩
  else
    match tryBody modelF req with
    | .ok r => .ok r
    | .error e => .error ⟨500, "Error generating embedding: " ++ e.str⟩

/-- One iteration of the batch loop (lines 237–249): call the single-item
handler on a reconstructed request (no prefix) and turn any exception —
`HTTPException` included — into a `None` placeholder. -/
def batchItem (modelLoaded : Bool) (modelF : String → Except String (List ℚ))
    (instruction : Option String) (dimensions : Option Int) (text : String) :
    Option (List ℚ) :=
  match generate_embedding modelLoaded modelF
      { text := text, dimensions := dimensions, instruction := instruction } with
  | .ok r => some r.embedding
  | .error _ => none

/-- The JSON body returned by `/embed/batch`. -/
structure BatchResponse where
  embeddings : List (Option (List ℚ))
  model : String
  count : Nat
  dimensions : Int
  failed : Nat
deriving Repr, DecidableEq

/-- Embedding of the `/embed/batch` handler `generate_batch_embeddings`
(lines 229–257): 503 when unloaded, else the per-item loop with `None`
placeholders, `count = len(embeddings)`,
`dimensions = dimensions or 1024` (Python `or`: falsy `None`/`0` give
1024), and `failed` the count of `None` entries. -/
def generate_batch_embeddings (modelLoaded : Bool)
    (modelF : String → Except String (List ℚ)) (texts : List String)
    (instruction : Option String) (dimensions : Option Int) :
    Except HTTPExc BatchResponse :=
  if modelLoaded = false then
    .error ⟨503, "Model is still loading. Please wait..."⟩
  else
    let embeddings := texts.map (batchItem modelLoaded modelF instruction dimensions)
    .ok { embeddings := embeddings
          model := "Qwen3-Embedding-0.6B"
          count := embeddings.length
          dimensions := match dimensions with
            | none => 1024
            | some d => if d = 0 then 1024 else d
          failed := embeddings.countP Option.isNone }

/-- The L2 norm of a vector over `ℝ`: `sqrt (Σ a·a)`. -/
noncomputable def l2norm (v : List ℝ) : ℝ :=
  Real.sqrt ((v.map fun a => a * a).sum)

/-- Model of the library call `torch.nn.functional.normalize(x, p=2,
dim=1)` on one row (line 199 of the server), per the library's documented
semantics: each component is divided by `max(‖v‖₂, eps)` with the default
`eps = 1e-12`.  The division never divides by zero: a vector of norm
below `eps` (for example the zero vector) is divided by `eps` and comes
out with norm `‖v‖/eps < 1`, not 1. -/
noncomputable def torch_normalize (v : List ℝ) : List ℝ :=
  v.map fun a => a / max (l2norm v) (1 / 10 ^ 12)

end Qwen3Server

namespace OllamaTest

/-- Outcome of one `requests` call against the remote service: a response
carrying its HTTP status code, or a raised `requests.RequestException`. -/
inductive CallOutcome where
  | ok (status : Int)
  | exn
deriving Repr, DecidableEq

/-- Did the call return a response with `status_code == 200`? -/
def isOk200 : CallOutcome → Bool
  | .ok s => s == 200
  | .exn => false

/-- Result of a normally-returning run of `wake_ollama_service`: the
boolean it returns, the total seconds spent in `time.sleep(5)` calls, and
whether the wake request was issued. -/
structure WakeResult where
  result : Bool
  sleepSeconds : Nat
  wakeIssued : Bool
deriving Repr, DecidableEq

/-- The `for i in range(12)` polling loop of `wake_ollama_service`
(lines 31–40 of the test script): each iteration first sleeps 5 seconds,
then probes `/api/tags` once inside `try/except`; a 200 response returns
`True` at once, a non-200 response or a `RequestException` is swallowed
and the loop continues; once the budget is exhausted the function falls
through to `return False`.  `probe k` is the outcome of the `k`-th probe
issued by the whole function; the loop running at index `i` with `fuel`
iterations left issues probes `i, i+1, ...`.  The second component of the
value is the seconds slept from this point on. -/
def wakeLoop (probe : Nat → CallOutcome) : Nat → Nat → Bool × Nat
  | _, 0 => (false, 0)
  | i, fuel + 1 =>
    if isOk200 (probe i) then (true, 5)
    else
      let r := wakeLoop probe (i + 1) fuel
      (r.1, r.2 + 5)

/-- Embedding of `wake_ollama_service` (lines 15–42 of the test script).
Probe 0 is the initial `GET /api/tags` inside `try/except`: a 200
response returns `True` immediately — no wake request, no sleep.  On a
non-200 response or an exception the function issues the wake request
`requests.get(OLLAMA_URL, timeout=5)`, which stands OUTSIDE every
`try` block: if it raises, the exception propagates to the caller
(modelled as `.error ()`).  Otherwise (its status is ignored) the
12-iteration poll loop runs, issuing probes 1..12. -/
def wake_ollama_service (probe : Nat → CallOutcome) (wakeCall : CallOutcome) :
    Except Unit WakeResult :=
  if isOk200 (probe 0) then .ok ⟨true, 0, false⟩
  else
    match wakeCall with
    | .exn => .error ()
    | .ok _ =>
      let r := wakeLoop probe 1 12
      .ok ⟨r.1, r.2, true⟩

/-- Lines 123–133 of `main`: the readiness step.  `main` calls
`wake_ollama_service` outside any `try` block, so a propagated exception
escapes `main` as well; a `False` result prints a message and returns
early (`.ok false`), a `True` result lets `main` continue to the API
steps, each of which wraps its network calls in its own broad
`try/except`. -/
def main_wake_step (probe : Nat → CallOutcome) (wakeCall : CallOutcome) :
    Except Unit Bool :=
  match wake_ollama_service probe wakeCall with
  | .error e => .error e
  | .ok r => .ok r.result

/-- Embedding of `calculate_similarity` (lines 109–120 of the test
script) over `ℝ` (Python floats as reals, `math.sqrt` as `Real.sqrt`):
dot product over `zip(vec1, vec2)` — which pairs only the first
`min(len(vec1), len(vec2))` components — norms over each vector's full
length, and `0.0` when either norm is zero. -/
noncomputable def calculate_similarity (vec1 vec2 : List ℝ) : ℝ :=
  let dot_product := (List.zipWith (fun a b => a * b) vec1 vec2).sum
  let norm1 := Real.sqrt ((vec1.map fun a => a * a).sum)
  let norm2 := Real.sqrt ((vec2.map fun b => b * b).sum)
  if norm1 = 0 ∨ norm2 = 0 then 0 else dot_product / (norm1 * norm2)

/-- Restatement of claim C10's reading of `calculate_similarity`, written
from the claim's words rather than from the source: the dot product
ranges over the index positions below `min(len(vec1), len(vec2))`, while
each norm ranges over that vector's full length. -/
noncomputable def calculate_similarity_claim (vec1 vec2 : List ℝ) : ℝ :=
  let dot_product :=
    ∑ i ∈ Finset.range (min vec1.length vec2.length), vec1.getD i 0 * vec2.getD i 0
  let norm1 := Real.sqrt ((vec1.map fun a => a * a).sum)
  let norm2 := Real.sqrt ((vec2.map fun b => b * b).sum)
  if norm1 = 0 ∨ norm2 = 0 then 0 else dot_product / (norm1 * norm2)

end OllamaTest

namespace Qwen3Server

/-- C1 — For every `/embed` request with the model loaded and non-empty
text, the claim says a requested `dimensions` outside `[32, 1024]`
(including 0 and negative values) yields a client error (4xx).  The code
does not do this at any out-of-range input: the `HTTPException(400, ...)`
raised by the range check sits inside the `try` block whose
`except Exception` re-raises it as a 500 server error, so `dimensions =
2000` and `dimensions = -5` produce a 500; and `dimensions = 0` is falsy,
so `if target_dim and target_dim != 1024` skips validation entirely and
the request succeeds with the full vector.  The explicit
`status_code=400` in the source shows the claim matches the intent and
the code is a slip (a known FastAPI pitfall). -/
theorem embed_dimensions_out_of_range_behavior :
    (generate_embedding true (fun _ => .ok [1, 2, 3]) { text := "hi", dimensions := some 2000 } =
      .error ⟨500,
        "Error generating embedding: 400: Dimensions must be between 32 and 1024, got 2000"⟩)
    ∧ (generate_embedding true (fun _ => .ok [1, 2, 3]) { text := "hi", dimensions := some (-5) } =
      .error ⟨500,
        "Error generating embedding: 400: Dimensions must be between 32 and 1024, got -5"⟩)
    ∧ (generate_embedding true (fun _ => .ok [1, 2, 3]) { text := "hi", dimensions := some 0 } =
      .ok { embedding := [1, 2, 3], dimensions := 3, model := "Qwen3-Embedding-0.6B",
            text_length := 2, mrl_applied := true }) := by
  refine ⟨by decide, by decide, by decide⟩

/-- C2 — For every `/embed` request with `dimensions = d`,
`32 ≤ d < 1024`, the model loaded, non-blank text, and the pipeline
producing the 1024-component normalized vector `emb`, the response is a
success whose `embedding` is exactly `emb.take d` — the first `d`
components, values unchanged, nothing re-normalized afterward — and
whose `dimensions` field equals `d`. -/
theorem embed_truncation_exact (modelF : String → Except String (List ℚ))
    (req : EmbedRequest) (emb : List ℚ) (d : Int)
    (hm : modelF (full_text req) = .ok emb)
    (hlen : emb.length = 1024)
    (hd : req.dimensions = some d) (h32 : 32 ≤ d) (hlt : d < 1024)
    (htext : ¬(req.text = "" ∨ pyStrip req.text = "")) :
    generate_embedding true modelF req =
      .ok { embedding := emb.take d.toNat
            dimensions := d.toNat
            model := "Qwen3-Embedding-0.6B"
            text_length := (full_text req).length
            mrl_applied := true } := by
  have hne : (d != 0) = true := by simp; omega
  have h1024 : some d ≠ some 1024 := by simp; omega
  have hrange : 32 ≤ d ∧ d ≤ 1024 := ⟨h32, by omega⟩
  have hlen2 : (List.take d.toNat emb).length = d.toNat := by
    rw [List.length_take, hlen]; omega
  have hmrl : ((some d).isSome && (some d != some 1024)) = true := by
    simp only [Option.isSome_some, Bool.true_and, bne_iff_ne, ne_eq, Option.some.injEq]
    omega
  simp only [generate_embedding, if_neg htext, Bool.true_eq_false, if_false, tryBody, hm,
    applyMRL, hd, intTruthy, hne, h1024, ne_eq, not_false_eq_true, and_self, if_true,
    if_pos hrange, Except.ok.injEq]
  rw [hlen2, hmrl]

/-- Witness for C2 at a concrete input: a 1024-component vector truncated
to its first 32 components. -/
theorem embed_truncation_exact_witness :
    generate_embedding true (fun _ => .ok (List.replicate 1024 (1 : ℚ)))
        { text := "hi", dimensions := some 32 } =
      .ok { embedding := (List.replicate 1024 (1 : ℚ)).take 32
            dimensions := 32
            model := "Qwen3-Embedding-0.6B"
            text_length := (full_text { text := "hi", dimensions := some 32 }).length
            mrl_applied := true } :=
  embed_truncation_exact _ _ _ 32 rfl (by rw [List.length_replicate]) rfl (by norm_num)
    (by norm_num) (by decide)

/-- C7 — With the model loaded, an empty or whitespace-only text is
rejected with a 400 client error; the error is the same for every
pipeline oracle `modelF`, which is how the embedding expresses that the
model is never invoked (the check precedes the `try` block, so the 400 is
not converted to a 500).  With the model not loaded the endpoint returns
503 regardless of the text. -/
theorem embed_input_validation :
    (∀ (modelF : String → Except String (List ℚ)) (req : EmbedRequest),
        req.text = "" ∨ pyStrip req.text = "" →
        generate_embedding true modelF req = .error ⟨400, "Text cannot be empty"⟩)
    ∧ (∀ (modelF : String → Except String (List ℚ)) (req : EmbedRequest),
        generate_embedding false modelF req = .error ⟨503, "Model is still loading. Please wait..."⟩) := by
  constructor
  · intro modelF req h
    simp only [generate_embedding, if_pos h, Bool.true_eq_false, if_false]
  · intro modelF req
    rfl

/-- Witness for C7 at concrete inputs: a whitespace-only text against a
loaded model, and an arbitrary text against an unloaded one. -/
theorem embed_input_validation_witness :
    generate_embedding true (fun _ => .ok [1]) { text := "  " } =
        .error ⟨400, "Text cannot be empty"⟩
    ∧ generate_embedding false (fun _ => .ok [1]) { text := "hi" } =
        .error ⟨503, "Model is still loading. Please wait..."⟩ :=
  ⟨embed_input_validation.1 _ _ (Or.inr (by decide)),
   embed_input_validation.2 _ _⟩

/-- The `mrl_applied` field of every successful `/embed` response equals
`request.dimensions is not None and request.dimensions != 1024`, read off
the shape of the `try` body. -/
theorem tryBody_mrl_applied (modelF : String → Except String (List ℚ))
    (req : EmbedRequest) (r : EmbedResponse) (h : tryBody modelF req = .ok r) :
    r.mrl_applied = (req.dimensions.isSome && req.dimensions != some 1024) := by
  unfold tryBody at h
  cases hm : modelF (full_text req) with
  | error msg => simp only [hm] at h; exact absurd h (by simp)
  | ok emb0 =>
    simp only [hm] at h
    cases ha : applyMRL emb0 req.dimensions with
    | error e => simp only [ha] at h; exact absurd h (by simp)
    | ok emb =>
      simp only [ha, Except.ok.injEq] at h
      rw [← h]

/-- Every successful run of the `/embed` handler comes from a successful
`try` body. -/
theorem generate_embedding_ok_of_tryBody (modelF : String → Except String (List ℚ))
    (req : EmbedRequest) (r : EmbedResponse)
    (h : generate_embedding true modelF req = .ok r) :
    tryBody modelF req = .ok r := by
  unfold generate_embedding at h
  split at h
  · exact absurd h (by simp)
  · split at h
    · exact absurd h (by simp)
    · cases htb : tryBody modelF req with
      | error e => rw [htb] at h; exact absurd h (by simp)
      | ok r2 => rw [htb] at h; cases h; rfl

set_option maxRecDepth 40000 in
/-- C8 — The claim reads `mrl_applied` as "the returned vector is a
strict prefix of the full vector".  That fails at `dimensions = 0`: the
falsy guard skips truncation, the full 1024-component vector is returned,
yet `mrl_applied = (0 is not None and 0 != 1024)` is `True`. -/
theorem mrl_applied_counterexample :
    generate_embedding true (fun _ => .ok (List.replicate 1024 (1 : ℚ)))
        { text := "hi", dimensions := some 0 } =
      .ok { embedding := List.replicate 1024 (1 : ℚ)
            dimensions := 1024
            model := "Qwen3-Embedding-0.6B"
            text_length := 2
            mrl_applied := true } := by decide

/-- C8 amended — For every successful `/embed` response, `mrl_applied`
reports whether the request's `dimensions` field was present and
different from 1024 (for in-range requests this coincides with the
returned vector being a strict prefix of the full vector, but for
`dimensions = 0` it is true although the full vector is returned). -/
theorem mrl_applied_amended (modelF : String → Except String (List ℚ))
    (req : EmbedRequest) (r : EmbedResponse)
    (h : generate_embedding true modelF req = .ok r) :
    r.mrl_applied = (req.dimensions.isSome && req.dimensions != some 1024) :=
  tryBody_mrl_applied modelF req r (generate_embedding_ok_of_tryBody modelF req r h)

/-- Witness for C8 amended at a concrete input (`dimensions = None`,
`mrl_applied = false`). -/
theorem mrl_applied_amended_witness :
    ({ embedding := [1, 2, 3], dimensions := 3, model := "Qwen3-Embedding-0.6B",
       text_length := 2, mrl_applied := false } : EmbedResponse).mrl_applied =
      (({ text := "hi" } : EmbedRequest).dimensions.isSome &&
        ({ text := "hi" } : EmbedRequest).dimensions != some 1024) :=
  mrl_applied_amended (fun _ => .ok [1, 2, 3]) { text := "hi" } _ (by decide)

/-- C3 — For every `/embed/batch` call with the model loaded, the call
succeeds; the response has exactly one entry per input text, in input
order (the `i`-th entry is the per-item result for the `i`-th text); a
text whose per-item call fails — for example a blank text, rejected with
a 400 that the batch loop's `except` turns into a placeholder — yields
`None` in its position rather than aborting the batch; and the reported
`failed` count equals the number of `None` entries. -/
theorem batch_structure (modelF : String → Except String (List ℚ))
    (texts : List String) (instruction : Option String) (dims : Option Int) :
    (generate_batch_embeddings true modelF texts instruction dims).isOk = true
    ∧ ∀ resp, generate_batch_embeddings true modelF texts instruction dims = .ok resp →
        resp.embeddings.length = texts.length
        ∧ (∀ i (h : i < texts.length),
            resp.embeddings[i]? = some (batchItem true modelF instruction dims texts[i]))
        ∧ (∀ i (h : i < texts.length), pyStrip texts[i] = "" →
            resp.embeddings[i]? = some none)
        ∧ resp.failed = resp.embeddings.countP Option.isNone := by
  constructor
  · rfl
  · intro resp h
    unfold generate_batch_embeddings at h
    rw [if_neg (by simp)] at h
    cases h
    refine ⟨by simp, ?_, ?_, rfl⟩
    · intro i hi
      simp [List.getElem?_map, List.getElem?_eq_getElem hi]
    · intro i hi hblank
      have : batchItem true modelF instruction dims texts[i] = none := by
        unfold batchItem generate_embedding
        rw [if_neg (show ¬(true = false) by simp), if_pos (Or.inr hblank)]
      simp [List.getElem?_map, List.getElem?_eq_getElem hi, this]

/-- Witness for C3 at a concrete input: two texts, the second blank, one
failure counted. -/
theorem batch_structure_witness :
    ({ embeddings := [some [1], none], model := "Qwen3-Embedding-0.6B", count := 2,
       dimensions := 1024, failed := 1 } : BatchResponse).embeddings.length =
        (["hi", " "] : List String).length
    ∧ ({ embeddings := [some [1], none], model := "Qwen3-Embedding-0.6B", count := 2,
         dimensions := 1024, failed := 1 } : BatchResponse).embeddings[1]? = some none
    ∧ ({ embeddings := [some [1], none], model := "Qwen3-Embedding-0.6B", count := 2,
         dimensions := 1024, failed := 1 } : BatchResponse).failed =
        ({ embeddings := [some [1], none], model := "Qwen3-Embedding-0.6B", count := 2,
           dimensions := 1024, failed := 1 } : BatchResponse).embeddings.countP Option.isNone := by
  have h := (batch_structure (fun _ => .ok [(1 : ℚ)]) ["hi", " "] none none).2
    { embeddings := [some [1], none], model := "Qwen3-Embedding-0.6B", count := 2,
      dimensions := 1024, failed := 1 } (by decide)
  exact ⟨h.1, h.2.2.1 1 (by norm_num) (by decide), h.2.2.2⟩

end Qwen3Server

namespace OllamaTest

/-- A polling loop that returns `False` slept 5 seconds per unit of fuel
and saw every one of its probes fail. -/
theorem wakeLoop_false (probe : Nat → CallOutcome) :
    ∀ fuel i s, wakeLoop probe i fuel = (false, s) →
      s = 5 * fuel ∧ ∀ j, i ≤ j → j < i + fuel → isOk200 (probe j) = false := by
  intro fuel
  induction fuel with
  | zero =>
    intro i s h
    unfold wakeLoop at h
    simp only [Prod.mk.injEq] at h
    exact ⟨by omega, fun j h1 h2 => absurd h2 (by omega)⟩
  | succ f ih =>
    intro i s h
    unfold wakeLoop at h
    rcases hw : wakeLoop probe (i + 1) f with ⟨b, n⟩
    by_cases hp : isOk200 (probe i) = true
    · rw [if_pos hp] at h
      exact absurd (congrArg Prod.fst h) (by simp)
    · rw [if_neg hp, hw] at h
      simp only [Prod.mk.injEq] at h
      obtain ⟨hb, hs⟩ := h
      subst hb
      obtain ⟨hn, hfail⟩ := ih (i + 1) n hw
      refine ⟨by omega, fun j hj1 hj2 => ?_⟩
      rcases Nat.eq_or_lt_of_le hj1 with he | hl
      · rw [← he]
        exact Bool.not_eq_true _ ▸ hp
      · exact hfail j hl (by omega)

/-- A polling loop whose first succeeding probe is the `k`-th returns
`True` having slept through probes `i..k`. -/
theorem wakeLoop_first_success (probe : Nat → CallOutcome) :
    ∀ fuel i k, i ≤ k → k < i + fuel → isOk200 (probe k) = true →
      (∀ j, i ≤ j → j < k → isOk200 (probe j) = false) →
      wakeLoop probe i fuel = (true, 5 * (k - i + 1)) := by
  intro fuel
  induction fuel with
  | zero =>
    intro i k h1 h2
    exact absurd h2 (by omega)
  | succ f ih =>
    intro i k hik hk hkok hfail
    unfold wakeLoop
    by_cases hp : isOk200 (probe i) = true
    · rw [if_pos hp]
      have hki : k = i := by
        by_contra hne
        have hlt : i < k := by omega
        rw [hfail i le_rfl hlt] at hp
        exact absurd hp (by simp)
      subst hki
      have : k - k + 1 = 1 := by omega
      rw [this]
    · rw [if_neg hp]
      have hik2 : i + 1 ≤ k := by
        rcases Nat.eq_or_lt_of_le hik with he | hl
        · rw [← he] at hkok
          exact absurd hkok hp
        · omega
      rw [ih (i + 1) k hik2 (by omega) hkok (fun j hj1 hj2 => hfail j (by omega) hj2)]
      have : 5 * (k - (i + 1) + 1) + 5 = 5 * (k - i + 1) := by omega
      simp only [this]

/-- C5 — The readiness probe `wake_ollama_service` (i) returns success
immediately — no wake request, no sleep — when the initial probe returns
200; (ii) returns failure only with the full retry budget spent: 12 polls
at the fixed 5-second interval (60 seconds slept) with every probe,
initial one included, having failed; and (iii) returns success at the
first loop poll that succeeds within the budget, having slept 5 seconds
per poll up to it (provided the unguarded wake request did not raise, in
which case the function does not return at all). -/
theorem wake_readiness_timing :
    (∀ (probe : Nat → CallOutcome) (wakeCall : CallOutcome), isOk200 (probe 0) = true →
        wake_ollama_service probe wakeCall = .ok ⟨true, 0, false⟩)
    ∧ (∀ (probe : Nat → CallOutcome) (wakeCall : CallOutcome) (r : WakeResult),
        wake_ollama_service probe wakeCall = .ok r → r.result = false →
        r.sleepSeconds = 60 ∧ ∀ j, j ≤ 12 → isOk200 (probe j) = false)
    ∧ (∀ (probe : Nat → CallOutcome) (wakeCall : CallOutcome) (k : Nat),
        1 ≤ k → k ≤ 12 → isOk200 (probe k) = true →
        (∀ j, j < k → isOk200 (probe j) = false) → wakeCall ≠ .exn →
        wake_ollama_service probe wakeCall = .ok ⟨true, 5 * k, true⟩) := by
  refine ⟨?_, ?_, ?_⟩
  · intro probe wakeCall h
    unfold wake_ollama_service
    rw [if_pos h]
  · intro probe wakeCall r h hr
    unfold wake_ollama_service at h
    by_cases hp : isOk200 (probe 0) = true
    · rw [if_pos hp] at h
      cases h
      exact absurd hr (by simp)
    · rw [if_neg hp] at h
      cases wakeCall with
      | exn => exact absurd h (by simp)
      | ok s =>
        rcases hw : wakeLoop probe 1 12 with ⟨b, n⟩
        rw [hw] at h
        cases h
        rw [show (⟨b, n, true⟩ : WakeResult).result = b from rfl] at hr
        subst hr
        obtain ⟨hn, hfail⟩ := wakeLoop_false probe 12 1 n hw
        refine ⟨by simpa using hn, fun j hj => ?_⟩
        rcases Nat.eq_zero_or_pos j with hj0 | hj1
        · rw [hj0]
          exact Bool.not_eq_true _ ▸ hp
        · exact hfail j hj1 (by omega)
  · intro probe wakeCall k hk1 hk12 hkok hfail hne
    unfold wake_ollama_service
    rw [if_neg (by rw [hfail 0 (by omega)]; simp)]
    cases wakeCall with
    | exn => exact absurd rfl hne
    | ok s =>
      rw [wakeLoop_first_success probe 12 1 k hk1 (by omega) hkok
        (fun j hj1 hj2 => hfail j hj2)]
      have : k - 1 + 1 = k := by omega
      rw [this]

/-- Witness for C5: immediate success on a ready service; all-failing
probes exhaust the budget; a first success at the third poll succeeds
after three sleeps. -/
theorem wake_readiness_timing_witness :
    wake_ollama_service (fun _ => CallOutcome.ok 200) (.ok 200) = .ok ⟨true, 0, false⟩
    ∧ isOk200 ((fun _ => CallOutcome.exn) 12) = false
    ∧ wake_ollama_service (fun n => if n = 3 then CallOutcome.ok 200 else .exn) (.ok 200) =
        .ok ⟨true, 15, true⟩ := by
  refine ⟨wake_readiness_timing.1 _ _ rfl, ?_, ?_⟩
  · exact (wake_readiness_timing.2.1 (fun _ => CallOutcome.exn) (.ok 200) ⟨false, 60, true⟩
      (by decide) rfl).2 12 (by norm_num)
  · exact wake_readiness_timing.2.2 (fun n => if n = 3 then CallOutcome.ok 200 else .exn)
      (.ok 200) 3 (by norm_num) (by norm_num) (by decide)
      (fun j hj => by interval_cases j <;> rfl) (by decide)

/-- C4 — The claim says `wake_ollama_service` and `main` return normally
for every sequence of remote-call outcomes.  They do not: the wake
request `requests.get(OLLAMA_URL, timeout=5)` at line 28 stands outside
every `try` block, so when the initial probe fails and the wake request
raises — here both raise `RequestException` — the exception propagates
out of `wake_ollama_service` and `main`. -/
theorem wake_propagation_counterexample :
    wake_ollama_service (fun _ => CallOutcome.exn) CallOutcome.exn = .error ()
    ∧ main_wake_step (fun _ => CallOutcome.exn) CallOutcome.exn = .error () :=
  ⟨by decide, by decide⟩

/-- C4 amended — `wake_ollama_service` and the wake step of `main` return
normally to their caller for every outcome sequence of the remote calls
in which the initial probe succeeds or the unguarded wake request does
not raise (its HTTP status is ignored); when the initial probe does not
return 200 and the wake request raises, the exception propagates. -/
theorem wake_no_raise_amended :
    ∀ (probe : Nat → CallOutcome) (wakeCall : CallOutcome),
      isOk200 (probe 0) = true ∨ wakeCall ≠ CallOutcome.exn →
      (wake_ollama_service probe wakeCall).isOk = true
      ∧ (main_wake_step probe wakeCall).isOk = true := by
  intro probe wakeCall h
  have hw : (wake_ollama_service probe wakeCall).isOk = true := by
    unfold wake_ollama_service
    by_cases hp : isOk200 (probe 0) = true
    · rw [if_pos hp]; rfl
    · rw [if_neg hp]
      cases wakeCall with
      | exn =>
        rcases h with h | h
        · exact absurd h hp
        · exact absurd rfl h
      | ok s => rfl
  refine ⟨hw, ?_⟩
  unfold main_wake_step
  cases hww : wake_ollama_service probe wakeCall with
  | error e => rw [hww] at hw; exact absurd hw (by simp [Except.isOk, Except.toBool])
  | ok r => simp only [hww]; rfl

/-- Witness for C4 amended: every probe raises but the wake request
returns (status 500, ignored) — both functions return normally. -/
theorem wake_no_raise_amended_witness :
    (wake_ollama_service (fun _ => CallOutcome.exn) (.ok 500)).isOk = true
    ∧ (main_wake_step (fun _ => CallOutcome.exn) (.ok 500)).isOk = true :=
  wake_no_raise_amended _ _ (Or.inr (by decide))

end OllamaTest

/-- A sum of squares is nonnegative. -/
theorem sumSq_nonneg (v : List ℝ) : 0 ≤ (v.map fun a => a * a).sum :=
  List.sum_nonneg (by
    intro x hx
    obtain ⟨a, _, rfl⟩ := List.mem_map.mp hx
    exact mul_self_nonneg a)

namespace OllamaTest

/-- Zipping a list with itself under multiplication squares it
componentwise. -/
theorem zipWith_mul_self (v : List ℝ) :
    List.zipWith (fun a b => a * b) v v = v.map fun a => a * a := by
  induction v with
  | nil => rfl
  | cons a t ih => simp [ih]

/-- C6 — `calculate_similarity` returns 0 whenever either equal-length
vector has zero L2 norm (the division is never reached), and the
similarity of any vector of nonzero norm with itself is exactly 1 (over
`ℝ`; the spec's `≈ 1.0` is exact in real arithmetic). -/
theorem calculate_similarity_zero_and_self :
    (∀ v1 v2 : List ℝ, v1.length = v2.length →
        Real.sqrt ((v1.map fun a => a * a).sum) = 0 ∨
          Real.sqrt ((v2.map fun a => a * a).sum) = 0 →
        calculate_similarity v1 v2 = 0)
    ∧ (∀ v : List ℝ, Real.sqrt ((v.map fun a => a * a).sum) ≠ 0 →
        calculate_similarity v v = 1) := by
  constructor
  · intro v1 v2 _ h
    simp only [calculate_similarity]
    rw [if_pos h]
  · intro v h
    simp only [calculate_similarity]
    rw [if_neg (by tauto), zipWith_mul_self, Real.mul_self_sqrt (sumSq_nonneg v)]
    have hs : (v.map fun a => a * a).sum ≠ 0 := fun h0 => h (by rw [h0, Real.sqrt_zero])
    exact div_self hs

/-- Witness for C6: a zero vector against a nonzero one gives 0, and
`[2]` against itself gives 1. -/
theorem calculate_similarity_zero_and_self_witness :
    calculate_similarity [0] [1] = 0 ∧ calculate_similarity [2] [2] = 1 := by
  constructor
  · exact calculate_similarity_zero_and_self.1 [0] [1] rfl (Or.inl (by simp))
  · have h4 : (([(2 : ℝ)].map fun a => a * a).sum) = 4 := by norm_num
    exact calculate_similarity_zero_and_self.2 [2]
      (by rw [h4]; exact ne_of_gt (Real.sqrt_pos.mpr (by norm_num)))

/-- The zipped dot product ranges over exactly the first
`min (len v1) (len v2)` index positions. -/
theorem zipWith_mul_sum_eq (v1 : List ℝ) :
    ∀ v2 : List ℝ, (List.zipWith (fun a b => a * b) v1 v2).sum =
      ∑ i ∈ Finset.range (min v1.length v2.length), v1.getD i 0 * v2.getD i 0 := by
  induction v1 with
  | nil => intro v2; simp
  | cons a t ih =>
    intro v2
    cases v2 with
    | nil => simp
    | cons b t2 =>
      simp only [List.zipWith_cons_cons, List.sum_cons, ih t2, List.length_cons,
        Nat.succ_min_succ]
      rw [Finset.sum_range_succ']
      simp only [List.getD_cons_succ, List.getD_cons_zero]
      ring

/-- C10 — For every pair of vectors, of equal length or not,
`calculate_similarity` returns a value (it is a total function) and that
value agrees with the claim's reading of the code: the dot product is
taken over only the first `min(len(vec1), len(vec2))` components — the
extent of Python's `zip` — while each norm is taken over that vector's
full length. -/
theorem calculate_similarity_min_length :
    ∀ v1 v2 : List ℝ, calculate_similarity v1 v2 = calculate_similarity_claim v1 v2 := by
  intro v1 v2
  simp only [calculate_similarity, calculate_similarity_claim, zipWith_mul_sum_eq]

end OllamaTest

namespace Qwen3Server

/-- Dividing every component by `c` divides the sum of squares by
`c * c`. -/
theorem sumSq_map_div (c : ℝ) (v : List ℝ) :
    ((v.map fun a => a / c).map fun a => a * a).sum =
      ((v.map fun a => a * a).sum) / (c * c) := by
  induction v with
  | nil => simp
  | cons a t ih =>
    simp only [List.map_cons, List.sum_cons, ih]
    rw [div_mul_div_comm, div_add_div_same]

/-- C9 — The claim says the pre-truncation embedding is unit-norm for
every possible model output.  It is not: for the zero pooled output
(1024-dimensional), `normalize` divides by `max(0, eps) = eps` and
returns the zero vector again, whose L2 norm is 0, not 1 — not within
any floating-point tolerance of 1. -/
theorem normalize_zero_vector_counterexample :
    l2norm (torch_normalize (List.replicate 1024 (0 : ℝ))) = 0 ∧ (0 : ℝ) ≠ 1 := by
  constructor
  · simp only [torch_normalize, l2norm, List.map_replicate, List.sum_replicate]
    simp
  · norm_num

/-- C9 amended — For every `/embed` request with non-empty text, the
embedding produced before any truncation has L2 norm exactly 1 for every
pooled model output whose L2 norm is at least the library's
`eps = 1e-12`; outputs of smaller norm (such as the zero vector) come
out with norm below 1 instead. -/
theorem normalize_unit_norm_amended (v : List ℝ) (h : 1 / 10 ^ 12 ≤ l2norm v) :
    l2norm (torch_normalize v) = 1 := by
  have hn : 0 < l2norm v := lt_of_lt_of_le (by norm_num) h
  have hS : 0 < (v.map fun a => a * a).sum := by
    rcases lt_or_eq_of_le (sumSq_nonneg v) with hlt | heq
    · exact hlt
    · rw [l2norm, ← heq, Real.sqrt_zero] at hn
      exact absurd hn (by norm_num)
  simp only [torch_normalize]
  rw [max_eq_left h]
  simp only [l2norm, sumSq_map_div, Real.mul_self_sqrt (sumSq_nonneg v)]
  rw [div_self (ne_of_gt hS), Real.sqrt_one]

/-- Witness for C9 amended: a 1024-dimensional pooled output of norm 1
(well above `eps`) normalizes to a unit vector. -/
theorem normalize_unit_norm_amended_witness :
    l2norm (torch_normalize ((1 : ℝ) :: List.replicate 1023 0)) = 1 := by
  have hv : l2norm ((1 : ℝ) :: List.replicate 1023 0) = 1 := by
    simp only [l2norm, List.map_cons, List.map_replicate, List.sum_cons, List.sum_replicate]
    norm_num
  exact normalize_unit_norm_amended _ (by rw [hv]; norm_num)

end Qwen3Server
